import Mathlib

/-!
Verification of the resilient channel provider of `mutagen-d/ssh-proxy`
(`src/index.js`). The definitions below are a shallow embedding of the
relevant parts of the source: the `SSHClient` class (handle lifecycle),
the `createProxyConnection` retry policy, the idle-timeout registration of
the dispatch loop, and the CLI/config resolution block.
-/

/-- Error value carried by a rejected promise; only its `message` matters
to the code (`e.message === 'Not connected'`, src/index.js line 150). -/
structure SSHError where
  message : String
deriving DecidableEq, Repr

/-- Embedding of `createProxyConnection` (src/index.js lines 145-156).
`att1` is the outcome of the first `ssh.forwardOut` attempt;
`restartCompletes` says whether the `connect()` awaited inside
`ssh.restart()` ever fires its `ready` event (the promise built at line 105
resolves only on `ready` and has no rejection path); `att2` is the outcome
of the retried `forwardOut`. The first component is `none` when the call
never settles (pending forever), `some r` when it settles with outcome `r`;
the second component counts how many times `ssh.restart()` was invoked. -/
def createProxyConnection (att1 : Except SSHError Nat) (restartCompletes : Bool)
    (att2 : Except SSHError Nat) : Option (Except SSHError Nat) × Nat :=
  match att1 with
  | Except.ok conn => (some (Except.ok conn), 0)
  | Except.error e =>
    if e.message = "Not connected" then
      if restartCompletes then (some att2, 1) else (none, 1)
    else (some (Except.error e), 0)

/-- Idle-timeout registration of the dispatch loop (src/index.js lines
171-175): `if (argv.keepalive) { socket.setTimeout(argv.keepalive * 1000, ...) }`.
Returns the registered timeout in milliseconds, or `none` when the
`keepalive` flag is zero (falsy) and no timeout is registered. -/
def idleTimeoutMs (keepalive : Nat) : Option Nat :=
  if keepalive = 0 then none else some (keepalive * 1000)

/-- Idle gaps of a client socket: the connection starts at time 0, sees
traffic at the (chronological) times in `traffic`, and is observed up to
`horizon`. `idleGaps last traffic horizon` lists the time spans with no
traffic. -/
def idleGaps (last : Nat) (traffic : List Nat) (horizon : Nat) : List Nat :=
  match traffic with
  | [] => [horizon - last]
  | t :: ts => (t - last) :: idleGaps t ts horizon

/-- Semantics of `socket.setTimeout(t, () => socket.destroy())` composed
with the registration rule `idleTimeoutMs`: the socket is destroyed by the
dispatch loop exactly when a timeout is registered and some idle gap
reaches it. -/
def socketDestroyedByIdle (keepalive : Nat) (traffic : List Nat) (horizon : Nat) : Bool :=
  match idleTimeoutMs keepalive with
  | none => false
  | some t => (idleGaps 0 traffic horizon).any (fun g => decide (t ≤ g))

/-- JavaScript truthiness of an optional string (`undefined` and `''` are
falsy). -/
def truthyS : Option String → Bool
  | none => false
  | some s => decide (s ≠ "")

/-- JavaScript `a || b` on optional strings. -/
def jsOr (a b : Option String) : Option String :=
  if truthyS a then a else b

/-- JavaScript `Array.prototype.pop`, functionally: the popped value
(`undefined` on an empty array) and the remaining array. -/
def jsPop (l : List String) : Option String × List String :=
  (l.getLast?, l.dropLast)

/-- Split a character list at every occurrence of `c`, accumulating the
current chunk in `acc` (reversed). -/
def splitOnCharAux (c : Char) : List Char → List Char → List (List Char)
  | [], acc => [acc.reverse]
  | x :: xs, acc =>
    if x = c then acc.reverse :: splitOnCharAux c xs []
    else splitOnCharAux c xs (x :: acc)

/-- JavaScript `String.prototype.split` with a single-character separator:
splits at every occurrence, keeps empty chunks, and maps the empty string
to `[""]`. -/
def jsSplit (s : String) (c : Char) : List String :=
  (splitOnCharAux c s.data []).map (fun l => String.mk l)

/-- Result of the destination-parsing block (src/index.js lines 116-122). -/
structure DestConfig where
  user : Option String
  host : Option String
deriving DecidableEq, Repr

/-- Embedding of the destination-parsing block (src/index.js lines
116-122): `destination = argv._[0].split('@'); host = host || destination.pop();
user = user || destination.pop();`. The `||` short-circuit means a pop only
happens when the corresponding flag is falsy. -/
def parseDestBlock (flagUser flagHost : Option String) (dest : Option String) : DestConfig :=
  match dest with
  | none => { user := flagUser, host := flagHost }
  | some d =>
    if d = "" then { user := flagUser, host := flagHost }
    else
      let parts0 := jsSplit d '@'
      let hostRes := if truthyS flagHost then (flagHost, parts0)
        else (jsOr flagHost (jsPop parts0).1, (jsPop parts0).2)
      let userRes := if truthyS flagUser then (flagUser, hostRes.2)
        else (jsOr flagUser (jsPop hostRes.2).1, (jsPop hostRes.2).2)
      { user := userRes.1, host := hostRes.1 }

/-- Private-key resolution of the config block (src/index.js line 128):
`argv.password ? undefined : argv.identity ? fs.readFileSync(argv.identity)
: fs.readFileSync(path.join(os.homedir(), './.ssh/id_rsa'))`.
`fileOf` abstracts the filesystem (`none` = file absent, in which case
`readFileSync` throws and startup fails). Returns the resolved
`privateKey` option (or the thrown error) together with the list of key
files the code attempted to read. -/
def resolveKey (password identity : Option String) (home : String)
    (fileOf : String → Option String) : Except String (Option String) × List String :=
  if truthyS password then (Except.ok none, [])
  else
    let p := if truthyS identity then identity.getD "" else home ++ "/.ssh/id_rsa"
    match fileOf p with
    | some k => (Except.ok (some k), [p])
    | none => (Except.error ("ENOENT: no such file " ++ p), [p])

/-- Connect options handed to the ssh2 client (src/index.js lines 123-130). -/
structure ConnectOptions where
  username : Option String
  password : Option String
  port : Nat
  host : Option String
  privateKey : Option String
  keepaliveInterval : Nat
deriving DecidableEq, Repr

/-- Embedding of the whole config block (src/index.js lines 116-131):
destination parsing followed by construction of `ssh.options`. Startup
fails (the thrown `readFileSync` error) when a needed key file is absent. -/
def loadConfig (flagUser flagHost : Option String) (dest : Option String) (flagPort : Nat)
    (flagPassword flagIdentity : Option String) (home : String)
    (fileOf : String → Option String) : Except String ConnectOptions :=
  let dc := parseDestBlock flagUser flagHost dest
  match (resolveKey flagPassword flagIdentity home fileOf).1 with
  | Except.error e => Except.error e
  | Except.ok k =>
    Except.ok { username := dc.user, password := flagPassword, port := flagPort,
                host := dc.host, privateKey := k, keepaliveInterval := 0 }

/-- State of one transport handle (the spec's Session states). -/
inductive HState
  | disconnected
  | connecting
  | ready
deriving DecidableEq, Repr

/-- Embedding of the `SSHClient` class state (src/index.js lines 83-112):
`handles` records every `new Client()` ever created by `init()` (index =
creation order) with its current state; `current` is the index of
`this.client` (`none` models the absent-client case guarded by
`if (this.client)` in `destroy()`). -/
structure SSHClient where
  handles : List HState
  current : Option Nat
deriving DecidableEq, Repr

/-- `init()` (src/index.js lines 89-97): create a fresh client handle and
make it current. A fresh ssh2 `Client` is not yet connected. -/
def SSHClient.init (s : SSHClient) : SSHClient :=
  { handles := s.handles ++ [HState.disconnected], current := some s.handles.length }

/-- Set the state of the current handle, a no-op when no client handle is
present (the `if (this.client)` guard). -/
def SSHClient.setCurState (s : SSHClient) (st : HState) : SSHClient :=
  match s.current with
  | some i => { s with handles := s.handles.set i st }
  | none => s

/-- `destroy()` (src/index.js lines 98-102): `if (this.client) return
this.client.destroy()`; destroying a handle forces it Disconnected and is
a no-op when the client is absent or already destroyed. -/
def SSHClient.destroy (s : SSHClient) : SSHClient :=
  s.setCurState HState.disconnected

/-- The synchronous part of `connect()` (src/index.js line 104): the
current handle starts connecting. -/
def SSHClient.connectStart (s : SSHClient) : SSHClient :=
  s.setCurState HState.connecting

/-- The `ready` event firing on the current handle (resolves the promise
built at src/index.js line 105). -/
def SSHClient.readyEvent (s : SSHClient) : SSHClient :=
  s.setCurState HState.ready

/-- Session-end notification from the transport (peer closed / network
failure): the current handle is forced back to Disconnected. -/
def SSHClient.endEvent (s : SSHClient) : SSHClient :=
  s.setCurState HState.disconnected

/-- `connect()` (src/index.js lines 103-106): starts connecting, then
returns a promise that settles only when `ready` fires (`readyFires`); the
promise has no rejection path, so on connect failure it never settles
(`none`). -/
def SSHClient.connect (s : SSHClient) (readyFires : Bool) : Option SSHClient :=
  if readyFires then some (s.connectStart.readyEvent) else none

/-- `restart()` (src/index.js lines 107-111): `this.destroy(); this.init();
return this.connect()`. -/
def SSHClient.restart (s : SSHClient) (readyFires : Bool) : Option SSHClient :=
  (s.destroy.init).connect readyFires

/-- Atomic steps of the session lifecycle, as they interleave in the
single-threaded event loop. `restartSync` is the synchronous prefix of
`restart()` (destroy, reinit, start connecting) that runs without a
suspension point; the awaited `ready`/end events arrive as separate steps. -/
inductive SessionOp
  | connectCall
  | readyEvt
  | endEvt
  | destroyCall
  | restartSync
deriving DecidableEq, Repr

/-- Effect of one lifecycle step on the client state. -/
def stepOp (s : SSHClient) (op : SessionOp) : SSHClient :=
  match op with
  | SessionOp.connectCall => s.connectStart
  | SessionOp.readyEvt => s.readyEvent
  | SessionOp.endEvt => s.endEvent
  | SessionOp.destroyCall => s.destroy
  | SessionOp.restartSync => (s.destroy.init).connectStart

/-- Run a sequence of lifecycle steps. -/
def runOps (s : SSHClient) (ops : List SessionOp) : SSHClient :=
  ops.foldl stepOp s

/-- The state right after `new SSHClient()` (src/index.js line 114): the
constructor calls `init()` once. -/
def initialClient : SSHClient :=
  SSHClient.init { handles := [], current := none }

/-- Number of handles that are not Disconnected. -/
def liveCount (l : List HState) : Nat :=
  (l.filter (fun h => decide (h ≠ HState.disconnected))).length

/-- Every handle other than the current one is Disconnected. -/
def othersDisc (s : SSHClient) : Prop :=
  ∀ j, j < s.handles.length → s.current ≠ some j → s.handles[j]? = some HState.disconnected

/-- The current-handle index, when present, is in range. -/
def currentValid (s : SSHClient) : Prop :=
  ∀ i, s.current = some i → i < s.handles.length

/-- Lifecycle invariant: a valid current index and all non-current handles
Disconnected. -/
def SessionInv (s : SSHClient) : Prop :=
  currentValid s ∧ othersDisc s

/-- Events of the underlying ssh2 client for which `init()` may register a
listener (src/index.js lines 94-96 register `error`, `connect`, `ready`;
nothing is registered for `close` / `end`). -/
inductive ClientEvent
  | errorEvt
  | connectEvt
  | readyEvt
  | closeEvt
  | endEvt
deriving DecidableEq, Repr

/-- What a registered listener does. -/
inductive HandlerAction
  | logOnly
  | callConnect
deriving DecidableEq, Repr

/-- The listeners `init()` registers (src/index.js lines 94-96): `error`
logs the error, `connect` and `ready` log verbosely; no listener exists
for the session-end events. -/
def initHandlers : ClientEvent → Option HandlerAction
  | ClientEvent.errorEvt => some HandlerAction.logOnly
  | ClientEvent.connectEvt => some HandlerAction.logOnly
  | ClientEvent.readyEvt => some HandlerAction.logOnly
  | ClientEvent.closeEvt => none
  | ClientEvent.endEvt => none

/-- Number of `connect()` calls the handler registered for event `e`
performs. -/
def connectCallsOnEvent (e : ClientEvent) : Nat :=
  match initHandlers e with
  | some HandlerAction.callConnect => 1
  | _ => 0

/-! ## Helper lemmas -/

theorem liveCount_cons (a : HState) (t : List HState) :
    liveCount (a :: t) = (if a = HState.disconnected then 0 else 1) + liveCount t := by
  by_cases h : a = HState.disconnected
  · simp [liveCount, List.filter_cons, h]
  · simp [liveCount, List.filter_cons, h]
    omega

theorem liveCount_eq_zero (l : List HState)
    (h : ∀ j, j < l.length → l[j]? = some HState.disconnected) : liveCount l = 0 := by
  induction l with
  | nil => rfl
  | cons a t ih =>
    have ha := h 0 (by simp)
    rw [List.getElem?_cons_zero] at ha
    have ht : liveCount t = 0 := by
      refine ih (fun j hj => ?_)
      have := h (j + 1) (by simp; omega)
      rwa [List.getElem?_cons_succ] at this
    rw [liveCount_cons, ht]
    simp_all

theorem liveCount_le_one (l : List HState) (i : Nat)
    (h : ∀ j, j < l.length → j ≠ i → l[j]? = some HState.disconnected) :
    liveCount l ≤ 1 := by
  induction l generalizing i with
  | nil => simp [liveCount]
  | cons a t ih =>
    rw [liveCount_cons]
    cases i with
    | zero =>
      have ht : liveCount t = 0 := by
        refine liveCount_eq_zero t (fun j hj => ?_)
        have := h (j + 1) (by simp; omega) (by omega)
        rwa [List.getElem?_cons_succ] at this
      rw [ht]
      split <;> omega
    | succ k =>
      have ha := h 0 (by simp) (by omega)
      rw [List.getElem?_cons_zero] at ha
      have ha' : a = HState.disconnected := by injection ha
      have ht : liveCount t ≤ 1 := by
        refine ih k (fun j hj hne => ?_)
        have := h (j + 1) (by simp; omega) (by omega)
        rwa [List.getElem?_cons_succ] at this
      rw [if_pos ha']
      omega

theorem sessionInv_setCurState (s : SSHClient) (st : HState) (h : SessionInv s) :
    SessionInv (s.setCurState st) := by
  obtain ⟨hv, ho⟩ := h
  unfold SSHClient.setCurState
  cases hc : s.current with
  | none => exact ⟨hv, ho⟩
  | some i =>
    constructor
    · intro k hk
      injection hk with hk
      subst hk
      have := hv i hc
      simpa [List.length_set] using this
    · intro j hj hne
      simp only [List.length_set] at hj
      have hij : i ≠ j := fun hij => hne (by rw [hij])
      rw [List.getElem?_set_ne hij]
      refine ho j hj ?_
      rw [hc]
      exact hne

theorem allDisc_destroy (s : SSHClient) (h : SessionInv s) :
    ∀ j, j < s.destroy.handles.length → s.destroy.handles[j]? = some HState.disconnected := by
  obtain ⟨hv, ho⟩ := h
  intro j hj
  unfold SSHClient.destroy SSHClient.setCurState at hj ⊢
  cases hc : s.current with
  | none =>
    simp only [hc] at hj ⊢
    exact ho j hj (by rw [hc]; intro hq; cases hq)
  | some i =>
    simp only [hc, List.length_set] at hj ⊢
    by_cases hij : i = j
    · subst hij
      exact List.getElem?_set_self (hv i hc)
    · rw [List.getElem?_set_ne hij]
      exact ho j hj (by rw [hc]; intro hq; injection hq; exact hij (by omega))

theorem sessionInv_restartSync (s : SSHClient) (h : SessionInv s) :
    SessionInv ((s.destroy.init).connectStart) := by
  refine sessionInv_setCurState _ _ ?_
  have hall := allDisc_destroy s h
  constructor
  · intro i hi
    unfold SSHClient.init at hi
    simp only at hi
    injection hi with hi
    subst hi
    simp [SSHClient.init, List.length_append]
  · intro j hj hne
    unfold SSHClient.init at hj hne ⊢
    simp only [List.length_append, List.length_cons, List.length_nil] at hj
    simp only at hne ⊢
    have hjlt : j < s.destroy.handles.length := by
      rcases Nat.lt_or_ge j s.destroy.handles.length with hlt | hge
      · exact hlt
      · exfalso; exact hne (by congr 1; omega)
    rw [List.getElem?_append_left hjlt]
    exact hall j hjlt

theorem sessionInv_stepOp (s : SSHClient) (op : SessionOp) (h : SessionInv s) :
    SessionInv (stepOp s op) := by
  cases op with
  | connectCall => exact sessionInv_setCurState s HState.connecting h
  | readyEvt => exact sessionInv_setCurState s HState.ready h
  | endEvt => exact sessionInv_setCurState s HState.disconnected h
  | destroyCall => exact sessionInv_setCurState s HState.disconnected h
  | restartSync => exact sessionInv_restartSync s h

theorem sessionInv_runOps (ops : List SessionOp) (s : SSHClient) (h : SessionInv s) :
    SessionInv (runOps s ops) := by
  induction ops generalizing s with
  | nil => exact h
  | cons op rest ih =>
    simp only [runOps, List.foldl_cons] at *
    exact ih (stepOp s op) (sessionInv_stepOp s op h)

theorem sessionInv_initialClient : SessionInv initialClient := by
  have h : initialClient = { handles := [HState.disconnected], current := some 0 } := rfl
  rw [h]
  constructor
  · intro i hi
    injection hi with hi
    simp only [List.length_cons, List.length_nil]
    omega
  · intro j hj hne
    simp only [List.length_cons, List.length_nil] at hj
    have hj0 : j = 0 := by omega
    subst hj0
    simp at hne

theorem liveCount_le_one_of_inv (s : SSHClient) (h : SessionInv s) :
    liveCount s.handles ≤ 1 := by
  obtain ⟨hv, ho⟩ := h
  cases hc : s.current with
  | none =>
    refine liveCount_le_one s.handles s.handles.length (fun j hj hne => ?_)
    exact ho j hj (by rw [hc]; intro hq; cases hq)
  | some i =>
    refine liveCount_le_one s.handles i (fun j hj hne => ?_)
    exact ho j hj (by rw [hc]; intro hq; injection hq; omega)

/-! ## Claim theorems -/

/-- C5: at every point in any sequence of connect/restart/destroy
operations (interleaved at the event loop's suspension points), at most
one non-Disconnected transport handle exists; `restartSync` models the
synchronous destroy-then-reinitialize-then-start-connecting prefix of
`restart()`, so the old handle is destroyed before the replacement is
created and reinitializations never overlap. -/
theorem C5_at_most_one_live_handle (ops : List SessionOp) :
    liveCount (runOps initialClient ops).handles ≤ 1 :=
  liveCount_le_one_of_inv _ (sessionInv_runOps ops initialClient sessionInv_initialClient)

/-- C4: `restart()` destroys the current handle (a step that is a no-op,
hence safe, when the handle is already destroyed or absent), then
reinitializes a fresh handle (index `s.handles.length`), then connects it,
and returns (`some`) only once that fresh handle is Ready; if `ready`
never fires it does not return at all. -/
theorem C4_restart_destroy_init_connect (s : SSHClient) (i : Nat)
    (hcur : s.current = some i) (hi : i < s.handles.length) :
    s.destroy.destroy = s.destroy ∧
    (∀ t : SSHClient, t.current = none → t.destroy = t) ∧
    s.restart false = none ∧
    ∃ s', s.restart true = some s' ∧
      s'.current = some s.handles.length ∧
      s'.handles[s.handles.length]? = some HState.ready ∧
      s'.handles[i]? = some HState.disconnected := by
  refine ⟨?_, ?_, rfl, ?_⟩
  · simp [SSHClient.destroy, SSHClient.setCurState, hcur, List.set_set]
  · intro t ht
    simp [SSHClient.destroy, SSHClient.setCurState, ht]
  · have hres : s.restart true = some
        { handles := (((s.handles.set i HState.disconnected) ++ [HState.disconnected]).set
            s.handles.length HState.connecting).set s.handles.length HState.ready,
          current := some s.handles.length } := by
      simp [SSHClient.restart, SSHClient.connect, SSHClient.init, SSHClient.destroy,
        SSHClient.connectStart, SSHClient.readyEvent, SSHClient.setCurState, hcur,
        List.length_set]
    refine ⟨_, hres, rfl, ?_, ?_⟩
    · rw [List.set_set, List.getElem?_set_self]
      simp [List.length_append, List.length_set]
    · rw [List.set_set, List.getElem?_set_ne (by omega),
        List.getElem?_append_left (by simp [List.length_set]; omega),
        List.getElem?_set_self (by omega)]

/-- C4 witness: restarting a client whose single handle is Ready yields a
fresh second handle that is Ready while the old one is destroyed. -/
theorem C4_restart_destroy_init_connect_witness :
    ∃ s', SSHClient.restart { handles := [HState.ready], current := some 0 } true = some s' ∧
      s'.current = some 1 ∧
      s'.handles[1]? = some HState.ready ∧
      s'.handles[0]? = some HState.disconnected :=
  (C4_restart_destroy_init_connect { handles := [HState.ready], current := some 0 } 0
    rfl (by decide)).2.2.2

/-- C1: if the first `forwardOut` attempt fails with `NotConnected`
(message `Not connected`), the provider calls `restart()` and retries
`forwardOut` exactly once, with exactly one restart performed; a first
attempt that fails with any other error, and any failure of the retried
attempt, propagates to the caller unmodified. -/
theorem C1_retry_once_on_stale (c : Nat) (m : String) (r : Bool)
    (att2 : Except SSHError Nat) :
    createProxyConnection (Except.ok c) r att2 = (some (Except.ok c), 0) ∧
    createProxyConnection (Except.error ⟨"Not connected"⟩) true att2 = (some att2, 1) ∧
    (m ≠ "Not connected" →
      createProxyConnection (Except.error ⟨m⟩) r att2 = (some (Except.error ⟨m⟩), 0)) := by
  refine ⟨rfl, by simp [createProxyConnection], fun h => ?_⟩
  simp [createProxyConnection, h]

/-- C1 witness: a non-stale error (`ECONNRESET`) is propagated unmodified
with no restart. -/
theorem C1_retry_once_on_stale_witness :
    createProxyConnection (Except.error ⟨"ECONNRESET"⟩) true (Except.ok 7) =
      (some (Except.error ⟨"ECONNRESET"⟩), 0) :=
  (C1_retry_once_on_stale 0 "ECONNRESET" true (Except.ok 7)).2.2 (by decide)

/-- C2: when the session is down and the `connect()` performed inside
`restart()` fails, the `ready` event never fires; `connect()`'s promise
has no rejection path, so `restart()` never settles and
`createProxyConnection` hangs forever (first component `none`) instead of
surfacing the error to the caller. -/
theorem C2_hangs_when_restart_connect_fails :
    (∀ s : SSHClient, s.connect false = none) ∧
    createProxyConnection (Except.error ⟨"Not connected"⟩) false (Except.ok 0) = (none, 1) :=
  ⟨fun _ => rfl, by simp [createProxyConnection]⟩

/-- C3 counterexample: a session-end notification (`close`/`end` on the
transport) triggers zero `connect()` calls, not exactly one: `init()`
registers no listener for these events, so no automatic reconnect happens. -/
theorem C3_counterexample :
    connectCallsOnEvent ClientEvent.closeEvt = 0 ∧
    connectCallsOnEvent ClientEvent.endEvt = 0 ∧
    ¬ connectCallsOnEvent ClientEvent.closeEvt = 1 := by
  refine ⟨rfl, rfl, ?_⟩
  decide

/-- C3 amended: no transport event ever triggers an automatic `connect()`;
the only reconnect path is the lazy `restart()` performed by
`createProxyConnection` when a channel request fails with `Not connected`. -/
theorem C3_amended_no_auto_reconnect :
    (∀ e : ClientEvent, connectCallsOnEvent e = 0) ∧
    (createProxyConnection (Except.error ⟨"Not connected"⟩) true (Except.ok 0)).2 = 1 := by
  refine ⟨fun e => ?_, by simp [createProxyConnection]⟩
  cases e <;> rfl

/-- C6: when the keepalive flag is nonzero, an idle timeout of
`keepalive * 1000` ms is registered and a socket with no traffic for the
configured interval is force-closed, while a socket all of whose idle gaps
stay below the interval is not closed; when the flag is zero, no timeout
is registered and the dispatch loop never closes an idle socket. -/
theorem C6_idle_timeout_policy (k : Nat) (traffic : List Nat) (horizon : Nat) :
    (k = 0 → idleTimeoutMs k = none ∧ socketDestroyedByIdle k traffic horizon = false) ∧
    (k ≠ 0 → idleTimeoutMs k = some (k * 1000) ∧
      (k * 1000 ≤ horizon → socketDestroyedByIdle k [] horizon = true) ∧
      ((∀ g ∈ idleGaps 0 traffic horizon, g < k * 1000) →
        socketDestroyedByIdle k traffic horizon = false)) := by
  constructor
  · rintro rfl
    exact ⟨rfl, rfl⟩
  · intro hk
    refine ⟨by simp [idleTimeoutMs, hk], fun hh => ?_, fun hall => ?_⟩
    · simp [socketDestroyedByIdle, idleTimeoutMs, hk, idleGaps]
      omega
    · simp only [socketDestroyedByIdle, idleTimeoutMs, if_neg hk]
      rw [List.any_eq_false]
      intro g hg
      simp only [decide_eq_true_eq]
      have := hall g hg
      omega

/-- C6 witness: with keepalive 5 an idle socket is closed after 6000 ms of
silence, and with keepalive 0 it is never closed. -/
theorem C6_idle_timeout_policy_witness :
    socketDestroyedByIdle 5 [] 6000 = true ∧ socketDestroyedByIdle 0 [] 6000 = false :=
  ⟨((C6_idle_timeout_policy 5 [] 6000).2 (by decide)).2.1 (by norm_num),
   ((C6_idle_timeout_policy 0 [] 6000).1 rfl).2⟩

/-- C7 counterexample: for the destination `alice@example.com:2222` with
no flags (port keeps its default 22), the code leaves `:2222` inside the
parsed host and the connect options keep port 22: no port is extracted
from the destination, refuting the claim that user, host, and port are
all parsed from `[user@]host[:port]`. -/
theorem C7_no_port_from_destination :
    parseDestBlock none none (some "alice@example.com:2222") =
      { user := some "alice", host := some "example.com:2222" } ∧
    (parseDestBlock none none (some "alice@example.com:2222")).host ≠ some "example.com" ∧
    loadConfig none none (some "alice@example.com:2222") 22 (some "pw") none ""
        (fun _ => none) =
      Except.ok { username := some "alice", password := some "pw", port := 22,
                  host := some "example.com:2222", privateKey := none,
                  keepaliveInterval := 0 } := by
  refine ⟨by decide, by decide, rfl⟩

/-- C7 amended: config loading extracts the SSH user and host from the
destination by splitting at every `@` (a truthy `--user`/`--host` flag
takes precedence and suppresses the corresponding pop); the port is never
parsed from the destination and always equals the `--port` flag, so a
`:port` suffix stays part of the host string. -/
theorem C7_amended_user_host_only (fu fh dest pw idf : Option String) (p : Nat)
    (home : String) (fileOf : String → Option String) (opts : ConnectOptions) :
    (loadConfig fu fh dest p pw idf home fileOf = Except.ok opts → opts.port = p) ∧
    (truthyS fh = true → (parseDestBlock fu fh dest).host = fh) ∧
    (truthyS fu = true → (parseDestBlock fu fh dest).user = fu) ∧
    parseDestBlock none none (some "alice@example.com") =
      { user := some "alice", host := some "example.com" } := by
  refine ⟨fun h => ?_, fun hh => ?_, fun hu => ?_, by decide⟩
  · cases hk : (resolveKey pw idf home fileOf).1 with
    | error e => simp [loadConfig, hk] at h
    | ok k =>
      simp only [loadConfig, hk] at h
      injection h with h
      rw [← h]
  · cases dest with
    | none => rfl
    | some d =>
      by_cases hd : d = "" <;> simp [parseDestBlock, hd, hh]
  · cases dest with
    | none => rfl
    | some d =>
      by_cases hd : d = "" <;> simp [parseDestBlock, hd, hu]

/-- C7 amended witness: with both flags set the parsed config keeps them,
and a concrete `loadConfig` run returns the flag port 2022. -/
theorem C7_amended_user_host_only_witness :
    (parseDestBlock (some "u") (some "h") (some "a@b")).host = some "h" ∧
    (parseDestBlock (some "u") (some "h") (some "a@b")).user = some "u" ∧
    ({ username := some "u", password := some "pw", port := 2022, host := some "h",
       privateKey := none, keepaliveInterval := 0 } : ConnectOptions).port = 2022 := by
  refine ⟨(C7_amended_user_host_only (some "u") (some "h") (some "a@b") (some "pw") none
      2022 "" (fun _ => none)
      { username := some "u", password := some "pw", port := 2022, host := some "h",
        privateKey := none, keepaliveInterval := 0 }).2.1 (by decide),
    (C7_amended_user_host_only (some "u") (some "h") (some "a@b") (some "pw") none
      2022 "" (fun _ => none)
      { username := some "u", password := some "pw", port := 2022, host := some "h",
        privateKey := none, keepaliveInterval := 0 }).2.2.1 (by decide),
    (C7_amended_user_host_only (some "u") (some "h") (some "a@b") (some "pw") none
      2022 "" (fun _ => none)
      { username := some "u", password := some "pw", port := 2022, host := some "h",
        privateKey := none, keepaliveInterval := 0 }).1 rfl⟩

/-- C8: the restart path of `createProxyConnection` is entered exactly
when the caught error's message is character-for-character equal to
`Not connected`; any other message is rethrown unmodified with no restart
attempted. -/
theorem C8_exact_message_gate (m : String) (r : Bool) (att2 : Except SSHError Nat) :
    ((createProxyConnection (Except.error ⟨m⟩) r att2).2 = 1 ↔ m = "Not connected") ∧
    (m ≠ "Not connected" →
      createProxyConnection (Except.error ⟨m⟩) r att2 = (some (Except.error ⟨m⟩), 0)) := by
  by_cases h : m = "Not connected"
  · subst h
    constructor
    · cases r <;> simp [createProxyConnection]
    · intro hc
      exact absurd rfl hc
  · constructor
    · simp [createProxyConnection, h]
    · intro _
      simp [createProxyConnection, h]

/-- C8 witness: the lowercase variant `not connected` is not recovered:
it is rethrown unmodified and no restart happens. -/
theorem C8_exact_message_gate_witness :
    createProxyConnection (Except.error ⟨"not connected"⟩) true (Except.ok 3) =
      (some (Except.error ⟨"not connected"⟩), 0) :=
  (C8_exact_message_gate "not connected" true (Except.ok 3)).2 (by decide)

/-- C9: the ssh2 connect option `keepaliveInterval` is 0 for every
configuration the config block can produce, and a nonzero `-k` flag is
used only as the per-socket idle timeout, converted to milliseconds by
multiplying by 1000. -/
theorem C9_transport_keepalive_always_zero (fu fh dest pw idf : Option String)
    (p k : Nat) (home : String) (fileOf : String → Option String) (opts : ConnectOptions) :
    (loadConfig fu fh dest p pw idf home fileOf = Except.ok opts →
      opts.keepaliveInterval = 0) ∧
    (k ≠ 0 → idleTimeoutMs k = some (k * 1000)) := by
  refine ⟨fun h => ?_, fun hk => by simp [idleTimeoutMs, hk]⟩
  cases hk : (resolveKey pw idf home fileOf).1 with
  | error e => simp [loadConfig, hk] at h
  | ok key =>
    simp only [loadConfig, hk] at h
    injection h with h
    rw [← h]

/-- C9 witness: a concrete configuration with `-k 5` yields
`keepaliveInterval = 0` in the connect options while the idle timeout is
5000 ms. -/
theorem C9_transport_keepalive_always_zero_witness :
    ({ username := none, password := some "pw", port := 22, host := some "h",
       privateKey := none, keepaliveInterval := 0 } : ConnectOptions).keepaliveInterval = 0 ∧
    idleTimeoutMs 5 = some 5000 := by
  refine ⟨(C9_transport_keepalive_always_zero none (some "h") none (some "pw") none
      22 5 "" (fun _ => none)
      { username := none, password := some "pw", port := 22, host := some "h",
        privateKey := none, keepaliveInterval := 0 }).1 rfl,
    (C9_transport_keepalive_always_zero none (some "h") none (some "pw") none
      22 5 "" (fun _ => none)
      { username := none, password := some "pw", port := 22, host := some "h",
        privateKey := none, keepaliveInterval := 0 }).2 (by decide)⟩

/-- C10: with a (truthy) password the private key is `undefined` and no
key file is read; without a password the file named by a (truthy)
`--identity` is read; with neither, `~/.ssh/id_rsa` is read
unconditionally, and startup fails with the `readFileSync` error when
that default file does not exist. -/
theorem C10_private_key_resolution (pw idf home : String) (idty : Option String)
    (fileOf : String → Option String) (hpw : pw ≠ "") (hid : idf ≠ "") :
    resolveKey (some pw) idty home fileOf = (Except.ok none, []) ∧
    (resolveKey none (some idf) home fileOf).2 = [idf] ∧
    (resolveKey none none home fileOf).2 = [home ++ "/.ssh/id_rsa"] ∧
    (fileOf (home ++ "/.ssh/id_rsa") = none →
      (resolveKey none none home fileOf).1 =
        Except.error ("ENOENT: no such file " ++ (home ++ "/.ssh/id_rsa"))) := by
  refine ⟨?_, ?_, ?_, fun hf => ?_⟩
  · simp [resolveKey, truthyS, hpw]
  · cases hf : fileOf idf <;> simp [resolveKey, truthyS, hid, hf]
  · cases hf : fileOf (home ++ "/.ssh/id_rsa") <;> simp [resolveKey, truthyS, hf]
  · simp [resolveKey, truthyS, hf]

/-- C10 witness: with password `secret` no file is read and the key is
`undefined`; with neither password nor identity on an empty filesystem,
startup fails with the default-path error. -/
theorem C10_private_key_resolution_witness :
    resolveKey (some "secret") (some "mykey") "/root" (fun _ => none) = (Except.ok none, []) ∧
    (resolveKey none none "/root" (fun _ => none)).1 =
      Except.error ("ENOENT: no such file " ++ ("/root" ++ "/.ssh/id_rsa")) :=
  ⟨(C10_private_key_resolution "secret" "mykey" "/root" (some "mykey") (fun _ => none)
      (by decide) (by decide)).1,
   (C10_private_key_resolution "secret" "mykey" "/root" (some "mykey") (fun _ => none)
      (by decide) (by decide)).2.2.2 rfl⟩
